import Mathlib

/-!
Shallow embedding of the calculator core (operations.py, calculation.py,
input_validators.py, calculator_config.py, calculator_memento.py, history.py,
calculator.py) and proofs about the claims of its specification.

Modelling conventions:
* Python `Decimal` values are modelled as exact rationals (`ℚ`).  All the
  arithmetic the verified claims depend on (add, subtract, multiply, abs,
  remainder, divide-integer, the zero tests) is exact in `Decimal` for the
  magnitudes this program admits, so the abstraction is faithful there.
  the `//` of `Decimal` (divide-integer) truncates toward zero and its `%`
  takes the sign of the dividend; both are modelled explicitly below.
* The float round-trip used by `Power`/`Root` (`Decimal(pow(float a, float b))`)
  is kept abstract as a parameter `fpow`/`froot : ℚ → ℚ → Except String ℚ`
  (error = message of the `ArithmeticError`/`ValueError` raised); it is a
  deterministic function, which is all the claims need.
* `str(decimal)`/`Decimal(str)` and `isoformat`/`fromisoformat` round-trip
  exactly in Python, so serialized fields are modelled by the values they
  denote.
* Exceptions are values of `PyErr`; a method that can raise returns `Except`.
  In-place mutation of the `Calculator` object plus a propagating exception is
  modelled by returning the (possibly mutated) state next to the result.
* Timestamps (`datetime.now()`) are opaque instants supplied as a `now`
  argument.
-/

/-- Instant captured by `datetime.datetime.now()`; opaque to the core logic. -/
abbrev Timestamp := Nat

instance exceptDecEq {ε α : Type} [DecidableEq ε] [DecidableEq α] :
    DecidableEq (Except ε α) := fun a b =>
  match a, b with
  | .ok x, .ok y =>
      if h : x = y then .isTrue (by rw [h]) else .isFalse (fun hh => by cases hh; exact h rfl)
  | .ok _, .error _ => .isFalse (fun hh => by cases hh)
  | .error _, .ok _ => .isFalse (fun hh => by cases hh)
  | .error x, .error y =>
      if h : x = y then .isTrue (by rw [h]) else .isFalse (fun hh => by cases hh; exact h rfl)

/-- Python `str.lower` on one character, for the ASCII alphabet the
operation names use. -/
def charLower (c : Char) : Char :=
  if 'A' ≤ c ∧ c ≤ 'Z' then Char.ofNat (c.toNat + 32) else c

/-- Python `str.lower`, for the ASCII names this program uses. -/
def strLower (s : String) : String :=
  ⟨s.data.map charLower⟩

/-- The exception classes the calculator core can raise: the two custom
classes from exceptions.py that matter to the claims, the configuration
error, and the builtin classes that appear (`ValueError` from the factory,
`ArithmeticError` and friends from float exponentiation). -/
inductive PyErr where
  | validationError (m : String)
  | operationError (m : String)
  | configurationError (m : String)
  | valueError (m : String)
  | arithmeticError (m : String)
deriving DecidableEq

/-- Python `str(e)`: the message carried by the exception. -/
def PyErr.msg : PyErr → String
  | .validationError m => m
  | .operationError m => m
  | .configurationError m => m
  | .valueError m => m
  | .arithmeticError m => m

/-- Class test used by the `except ValidationError` clause. -/
def PyErr.isValidationError : PyErr → Bool
  | .validationError _ => true
  | _ => false

/-- Class test for `OperationError`. -/
def PyErr.isOperationError : PyErr → Bool
  | .operationError _ => true
  | _ => false

/-- Python `Decimal` divide-integer `a // b`: the exact quotient truncated
toward zero (per the decimal module: "returning the integer part of the true
quotient (truncating towards zero) rather than its floor"). -/
def decIntDiv (a b : ℚ) : ℤ :=
  if 0 ≤ a / b then ⌊a / b⌋ else ⌈a / b⌉

/-- Python `Decimal` remainder `a % b`: satisfies `a == (a // b) * b + a % b`,
so its sign follows the dividend. -/
def decRem (a b : ℚ) : ℚ :=
  a - b * (decIntDiv a b : ℚ)

/-- Whether a character list occurs as a contiguous run at the front. -/
def listStartsWith : List Char → List Char → Bool
  | [], _ => true
  | _ :: _, [] => false
  | c :: cs, d :: ds => c = d && listStartsWith cs ds

/-- Whether `needle` occurs as a contiguous run somewhere in `hay`. -/
def listContainsRun (needle : List Char) : List Char → Bool
  | [] => listStartsWith needle []
  | d :: ds => listStartsWith needle (d :: ds) || listContainsRun needle ds

/-- Python `needle in hay` on strings (substring containment). -/
def strContainsSub (hay needle : String) : Bool :=
  listContainsRun needle.toList hay.toList

/-- An operation strategy object (operations.py): `name` is `str(self)`,
i.e. `self.__class__.__name__`, and `exec` is `execute` (which calls
`validate_operands` first). -/
structure Strategy where
  name : String
  exec : ℚ → ℚ → Except PyErr ℚ

/-- operations.py `Addition`. -/
def Addition : Strategy :=
  ⟨"Addition", fun a b => .ok (a + b)⟩

/-- operations.py `Subtraction`. -/
def Subtraction : Strategy :=
  ⟨"Subtraction", fun a b => .ok (a - b)⟩

/-- operations.py `Multiplication`. -/
def Multiplication : Strategy :=
  ⟨"Multiplication", fun a b => .ok (a * b)⟩

/-- operations.py `Division`. -/
def Division : Strategy :=
  ⟨"Division", fun a b =>
    if b = 0 then .error (.validationError "Division by zero is not allowed.")
    else .ok (a / b)⟩

/-- operations.py `Power`; `fpow` abstracts `Decimal(pow(float(a), float(b)))`. -/
def Power (fpow : ℚ → ℚ → Except String ℚ) : Strategy :=
  ⟨"Power", fun a b =>
    if b < 0 then .error (.validationError "Negative exponent is not allowed for this operation.")
    else match fpow a b with
      | .ok r => .ok r
      | .error m => .error (.arithmeticError m)⟩

/-- operations.py `Root`; `froot` abstracts `Decimal(pow(float(a), 1 / float(b)))`. -/
def Root (froot : ℚ → ℚ → Except String ℚ) : Strategy :=
  ⟨"Root", fun a b =>
    if a < 0 then .error (.validationError "Cannot calculate the root of a negative number.")
    else if b ≤ 0 then .error (.validationError "Root degree must be greater than zero.")
    else match froot a b with
      | .ok r => .ok r
      | .error m => .error (.arithmeticError m)⟩

/-- operations.py `Modulus`. -/
def Modulus : Strategy :=
  ⟨"Modulus", fun a b =>
    if b = 0 then .error (.validationError "Modulus by zero is not allowed.")
    else .ok (decRem a b)⟩

/-- operations.py `IntegerDivision`: validates `b != 0` and
`a % 1 == 0 and b % 1 == 0`, then returns `a // b`. -/
def IntegerDivision : Strategy :=
  ⟨"IntegerDivision", fun a b =>
    if b = 0 then .error (.validationError "Integer division by zero is not allowed.")
    else if ¬(decRem a 1 = 0 ∧ decRem b 1 = 0) then
      .error (.validationError "Both operands must be integers for integer division.")
    else .ok (decIntDiv a b : ℚ)⟩

/-- operations.py `Percentage`. -/
def Percentage : Strategy :=
  ⟨"Percentage", fun a b =>
    if b = 0 then .error (.validationError "Percentage value cannot be zero.")
    else .ok (a / b * 100)⟩

/-- operations.py `AbsoluteDifference`. -/
def AbsoluteDifference : Strategy :=
  ⟨"AbsoluteDifference", fun a b => .ok |a - b|⟩

/-- A runtime-registered operation class named `add` (lowercase), as
`OperationFactory.register_operation` admits (any subclass of `Operation`,
e.g. `class add(Addition): pass`); it inherits `execute` from `Addition` and
`str(self)` is `"add"`.  Used to exhibit runs where `perform_operation`
reaches its history-mutation steps. -/
def addNamed : Strategy :=
  ⟨"add", fun a b => .ok (a + b)⟩

/-- operations.py `OperationFactory._operations`, seeded with the ten
built-in operations. -/
def builtinOperations (fpow froot : ℚ → ℚ → Except String ℚ) : List (String × Strategy) :=
  [("add", Addition), ("subtract", Subtraction), ("multiply", Multiplication),
   ("divide", Division), ("power", Power fpow), ("root", Root froot),
   ("modulus", Modulus), ("integerdivide", IntegerDivision),
   ("percentage", Percentage), ("absolute", AbsoluteDifference)]

/-- operations.py `OperationFactory.create_operation`: case-insensitive
lookup; raises `ValueError` (note the source's spelling "Unkown") when the
name is absent. -/
def createOperation (ops : List (String × Strategy)) (operationType : String) :
    Except PyErr Strategy :=
  match ops.lookup (strLower operationType) with
  | some s => .ok s
  | none => .error (.valueError ("Unkown operation type: " ++ operationType))

/-- calculator_config.py `CalculatorConfig` (the fields the core consults). -/
structure CalculatorConfig where
  maxHistorySize : Int
  autoSave : Bool
  precision : Int
  maxInputValue : ℚ
deriving DecidableEq

/-- calculator_config.py `CalculatorConfig.validate`. -/
def CalculatorConfig.validate (cfg : CalculatorConfig) : Except PyErr Unit :=
  if cfg.maxHistorySize ≤ 0 then
    .error (.configurationError "Maximum history size must be a positive integer.")
  else if cfg.precision < 0 then
    .error (.configurationError "Precision must be a non-negative integer.")
  else if cfg.maxInputValue ≤ 0 then
    .error (.configurationError "Maximum input value must be a positive number.")
  else .ok ()

/-- The default configuration values (max_history_size 1000, auto_save true,
precision 10, max_input_value 1000000). -/
def defaultConfig : CalculatorConfig :=
  ⟨1000, true, 10, 1000000⟩

/-- A raw operand as received by `InputValidator.validate_number`: either a
value that `Decimal(str(value))` parses exactly (numbers, numeric strings
after stripping), or a (stripped) text `Decimal` rejects. -/
inductive RawInput where
  | num (value : ℚ)
  | invalid (text : String)
deriving DecidableEq

/-- input_validators.py `InputValidator.validate_number`: parse, bound-check
against `config.max_input_value`, normalize (numerically the identity).  The
display string of the bound in the error message is rendered with `toString`;
no claim depends on that rendering. -/
def validateNumber (value : RawInput) (cfg : CalculatorConfig) : Except PyErr ℚ :=
  match value with
  | .invalid t => .error (.validationError ("Invalid number format: " ++ t))
  | .num q =>
      if |q| > cfg.maxInputValue then
        .error (.validationError ("Input exceeds maximum allowed value: " ++ toString cfg.maxInputValue))
      else .ok q

/-- calculation.py `Calculation`: operation name, the two operands, the
result computed at construction, and the construction timestamp. -/
structure Calculation where
  operation : String
  operand1 : ℚ
  operand2 : ℚ
  result : ℚ
  timestamp : Timestamp
deriving DecidableEq

/-- The `except (InvalidOperation, ValueError, ArithmeticError)` wrapper
inside calculation.py `Calculation.calculate`. -/
def wrapCalcErr : Except String ℚ → Except PyErr ℚ
  | .ok r => .ok r
  | .error m => .error (.operationError ("Calculation failed: " ++ m))

/-- calculation.py `Calculation.calculate`: the lowercase-keyed operation
table.  The `_raise_*` helpers raise `OperationError` directly (not caught by
the `except` clause, which only catches `InvalidOperation`, `ValueError` and
`ArithmeticError`). -/
def Calculation.calculate (fpow froot : ℚ → ℚ → Except String ℚ)
    (operation : String) (operand1 operand2 : ℚ) : Except PyErr ℚ :=
  if operation = "add" then .ok (operand1 + operand2)
  else if operation = "subtract" then .ok (operand1 - operand2)
  else if operation = "multiply" then .ok (operand1 * operand2)
  else if operation = "divide" then
    if operand2 ≠ 0 then .ok (operand1 / operand2)
    else .error (.operationError "Division by zero is not allowed.")
  else if operation = "power" then
    if 0 ≤ operand2 then wrapCalcErr (fpow operand1 operand2)
    else .error (.operationError "Negative exponent is not allowed for this operation.")
  else if operation = "root" then
    if 0 ≤ operand1 ∧ 0 < operand2 then wrapCalcErr (froot operand1 operand2)
    else if operand1 < 0 then .error (.operationError "Cannot calculate the root of a negative number.")
    else if operand2 ≤ 0 then .error (.operationError "Root degree must be greater than zero.")
    else .error (.operationError "Invalid root operation.")
  else if operation = "modulus" then
    if operand2 ≠ 0 then .ok (decRem operand1 operand2)
    else .error (.operationError "Modulus by zero is not allowed.")
  else if operation = "integerdivide" then
    if operand2 ≠ 0 then .ok (decIntDiv operand1 operand2 : ℚ)
    else .error (.operationError "Integer division by zero is not allowed.")
  else if operation = "percentage" then
    if operand2 ≠ 0 then .ok (operand1 / operand2 * 100)
    else .error (.operationError "Cannot calculate percentage with zero base value.")
  else if operation = "absolute" then .ok |operand1 - operand2|
  else .error (.operationError ("Unknown operation: " ++ operation))

/-- Constructing a calculation.py `Calculation(operation, operand1, operand2)`:
`__post_init__` computes `result` via `calculate` and the timestamp defaults
to the current instant. -/
def Calculation.make (fpow froot : ℚ → ℚ → Except String ℚ)
    (operation : String) (operand1 operand2 : ℚ) (now : Timestamp) :
    Except PyErr Calculation :=
  match Calculation.calculate fpow froot operation operand1 operand2 with
  | .ok r => .ok ⟨operation, operand1, operand2, r, now⟩
  | .error e => .error e

/-- The record produced by calculation.py `Calculation.to_dict`: five fields,
the decimal ones serialized by exact decimal-to-string and the timestamp by
`isoformat` (both round-trip exactly, so fields are modelled by the values
they denote). -/
structure CalcDict where
  operation : String
  operand1 : ℚ
  operand2 : ℚ
  result : ℚ
  timestamp : Timestamp
deriving DecidableEq

/-- calculation.py `Calculation.to_dict`. -/
def Calculation.toDict (c : Calculation) : CalcDict :=
  ⟨c.operation, c.operand1, c.operand2, c.result, c.timestamp⟩

/-- calculation.py `Calculation.from_dict`: re-runs the normal construction
path with the stored operands (recomputing `result`), then overwrites the
timestamp with the stored one.  A stored-result mismatch is only logged.
Construction errors (from `calculate`) are `OperationError`s, which the
`except (KeyError, InvalidOperation, ValueError)` clause does not catch, so
they propagate unchanged. -/
def Calculation.fromDict (fpow froot : ℚ → ℚ → Except String ℚ)
    (d : CalcDict) (now : Timestamp) : Except PyErr Calculation :=
  match Calculation.make fpow froot d.operation d.operand1 d.operand2 now with
  | .ok c => .ok { c with timestamp := d.timestamp }
  | .error e => .error e

/-- calculation.py `Calculation.__eq__`: compares operation, operands and
result, ignoring the timestamp. -/
def Calculation.pyEq (c other : Calculation) : Prop :=
  c.operation = other.operation ∧ c.operand1 = other.operand1 ∧
    c.operand2 = other.operand2 ∧ c.result = other.result

instance : DecidablePred fun p : Calculation × Calculation => p.1.pyEq p.2 :=
  fun _ => by unfold Calculation.pyEq; infer_instance

/-- calculator_memento.py `CalculatorMemento`: a copied history plus a
creation timestamp. -/
structure CalculatorMemento where
  history : List Calculation
  timestamp : Timestamp
deriving DecidableEq

/-- history.py observers: the logging observer (which cannot fail on a
non-null calculation) and the auto-saver, whose `update` calls
`calculator.save_history()` when `config.auto_save` is set; `saveOutcome` is
the outcome of that file write (error = the message of the `OperationError`
`save_history` raises). -/
inductive Observer where
  | logging
  | autoSaver (saveOutcome : Except String Unit)

/-- history.py `LoggingObserver.update` / `AutoSaverObserver.update` for a
non-null calculation. -/
def Observer.update (cfg : CalculatorConfig) (o : Observer) (_c : Calculation) :
    Except PyErr Unit :=
  match o with
  | .logging => .ok ()
  | .autoSaver outcome =>
      if cfg.autoSave then
        match outcome with
        | .ok _ => .ok ()
        | .error m => .error (.operationError ("Failed to save history: " ++ m))
      else .ok ()

/-- calculator.py `Calculator.notify_observers`: calls each observer in
registration order; an exception aborts the loop and propagates. -/
def notifyObservers (cfg : CalculatorConfig) (obs : List Observer) (c : Calculation) :
    Except PyErr Unit :=
  match obs with
  | [] => .ok ()
  | o :: rest =>
      match Observer.update cfg o c with
      | .ok _ => notifyObservers cfg rest c
      | .error e => .error e

/-- The mutable containers of calculator.py `Calculator`: the live history
and the two memento stacks (Python lists used as LIFO at the tail). -/
structure CalculatorState where
  history : List Calculation
  undoStack : List CalculatorMemento
  redoStack : List CalculatorMemento
deriving DecidableEq

/-- The freshly initialized state: empty history and stacks. -/
def emptyState : CalculatorState :=
  ⟨[], [], []⟩

/-- The history/stack mutation block of `Calculator.perform_operation`: push
a memento of the pre-mutation history onto the undo stack, clear the redo
stack, append the new calculation, and `pop(0)` once if the length now
exceeds `max_history_size`. -/
def applyMutation (cfg : CalculatorConfig) (st : CalculatorState)
    (c : Calculation) (now : Timestamp) : CalculatorState :=
  let newHistory := st.history ++ [c]
  { history := if (newHistory.length : ℤ) > cfg.maxHistorySize then newHistory.drop 1 else newHistory,
    undoStack := st.undoStack ++ [⟨st.history, now⟩],
    redoStack := [] }

/-- The state-free first half of the `try` block in
`Calculator.perform_operation`: validate both operands, execute the strategy,
construct the `Calculation` (named by `str(self.operation_strategy)`).
Returns the execution result and the record to append. -/
def performPre (cfg : CalculatorConfig) (strat : Strategy)
    (fpow froot : ℚ → ℚ → Except String ℚ) (a b : RawInput) (now : Timestamp) :
    Except PyErr (ℚ × Calculation) :=
  match validateNumber a cfg with
  | .error e => .error e
  | .ok va =>
    match validateNumber b cfg with
    | .error e => .error e
    | .ok vb =>
      match strat.exec va vb with
      | .error e => .error e
      | .ok result =>
        match Calculation.make fpow froot strat.name va vb now with
        | .error e => .error e
        | .ok c => .ok (result, c)

/-- The tail of the `try` block once the record `c` exists: the
history/stack mutation has been applied, then the observers run; an observer
exception propagates with the mutation already in place. -/
def notifyStep (cfg : CalculatorConfig) (obs : List Observer)
    (st : CalculatorState) (c : Calculation) (now : Timestamp) (result : ℚ) :
    Except PyErr ℚ × CalculatorState :=
  match notifyObservers cfg obs c with
  | .error e => (.error e, applyMutation cfg st c now)
  | .ok _ => (.ok result, applyMutation cfg st c now)

/-- The body of the `try` block in `Calculator.perform_operation`: the
state-free prefix (`performPre`), then the history/stack mutation and
observer notification (`notifyStep`), returning the execution result.  The
state returned is the state the object is left in, also when an exception
propagates. -/
def performBody (cfg : CalculatorConfig) (strat : Strategy)
    (fpow froot : ℚ → ℚ → Except String ℚ) (obs : List Observer)
    (st : CalculatorState) (a b : RawInput) (now : Timestamp) :
    Except PyErr ℚ × CalculatorState :=
  match performPre cfg strat fpow froot a b now with
  | .error e => (.error e, st)
  | .ok (result, c) => notifyStep cfg obs st c now result

/-- The two `except` clauses of `Calculator.perform_operation`:
`ValidationError` is re-raised unchanged, everything else is re-raised as
`OperationError` wrapping the original message. -/
def handleErr (e : PyErr) : PyErr :=
  if e.isValidationError then e else .operationError ("Operation failed: " ++ e.msg)

/-- calculator.py `Calculator.perform_operation`: the no-strategy guard, the
`try` body and its `except` clauses. -/
def Calculator.performOperation (cfg : CalculatorConfig) (strategy : Option Strategy)
    (fpow froot : ℚ → ℚ → Except String ℚ) (obs : List Observer)
    (st : CalculatorState) (a b : RawInput) (now : Timestamp) :
    Except PyErr ℚ × CalculatorState :=
  match strategy with
  | none => (.error (.operationError "No operation set. Please set an operation before performing calculations."), st)
  | some strat =>
      match performBody cfg strat fpow froot obs st a b now with
      | (.ok r, st2) => (.ok r, st2)
      | (.error e, st2) => (.error (handleErr e), st2)

/-- calculator.py `Calculator.undo`. -/
def Calculator.undo (st : CalculatorState) (now : Timestamp) : Bool × CalculatorState :=
  match st.undoStack.getLast? with
  | none => (false, st)
  | some m =>
      (true, { history := m.history,
               undoStack := st.undoStack.dropLast,
               redoStack := st.redoStack ++ [⟨st.history, now⟩] })

/-- calculator.py `Calculator.redo`. -/
def Calculator.redo (st : CalculatorState) (now : Timestamp) : Bool × CalculatorState :=
  match st.redoStack.getLast? with
  | none => (false, st)
  | some m =>
      (true, { history := m.history,
               redoStack := st.redoStack.dropLast,
               undoStack := st.undoStack ++ [⟨st.history, now⟩] })

/-- Stand-in for the abstract float-exponentiation parameter in closed
statements whose inputs never reach `Power` or `Root`. -/
def noFloat : ℚ → ℚ → Except String ℚ :=
  fun _ _ => .error "float semantics left abstract"


/-! Helper lemmas about the shape of a `perform_operation` run, shared by
the claim theorems below. -/

lemma performBody_ok_shape (cfg : CalculatorConfig) (strat : Strategy)
    (fpow froot : ℚ → ℚ → Except String ℚ) (obs : List Observer)
    (st : CalculatorState) (a b : RawInput) (now : Timestamp) (r : ℚ)
    (h : (performBody cfg strat fpow froot obs st a b now).1 = .ok r) :
    ∃ c, performBody cfg strat fpow froot obs st a b now
      = (.ok r, applyMutation cfg st c now) ∧ notifyObservers cfg obs c = .ok () := by
  unfold performBody at h ⊢
  rcases hp : performPre cfg strat fpow froot a b now with e | ⟨r2, c⟩
  · rw [hp] at h
    exact absurd h (by simp)
  · rw [hp] at h
    have h2 : (notifyStep cfg obs st c now r2).1 = .ok r := h
    unfold notifyStep at h2
    rcases hnt : notifyObservers cfg obs c with e | u
    · rw [hnt] at h2
      exact absurd h2 (by simp)
    · rw [hnt] at h2
      have hr : r2 = r := by simpa using h2
      subst hr
      have hgoal : notifyStep cfg obs st c now r2 = (.ok r2, applyMutation cfg st c now) := by
        unfold notifyStep
        rw [hnt]
      exact ⟨c, hgoal, hnt⟩

lemma performBody_error_shape (cfg : CalculatorConfig) (strat : Strategy)
    (fpow froot : ℚ → ℚ → Except String ℚ) (obs : List Observer)
    (st : CalculatorState) (a b : RawInput) (now : Timestamp) (e : PyErr)
    (h : (performBody cfg strat fpow froot obs st a b now).1 = .error e) :
    performBody cfg strat fpow froot obs st a b now = (.error e, st) ∨
    ∃ c, performBody cfg strat fpow froot obs st a b now = (.error e, applyMutation cfg st c now) ∧
      notifyObservers cfg obs c = .error e := by
  unfold performBody at h ⊢
  rcases hp : performPre cfg strat fpow froot a b now with e1 | ⟨r2, c⟩
  · rw [hp] at h
    have he : e1 = e := by simpa using h
    subst he
    exact .inl rfl
  · rw [hp] at h
    have h2 : (notifyStep cfg obs st c now r2).1 = .error e := h
    unfold notifyStep at h2
    rcases hnt : notifyObservers cfg obs c with e1 | u
    · rw [hnt] at h2
      have he : e1 = e := by simpa using h2
      subst he
      refine .inr ⟨c, ?_, hnt⟩
      have hgoal : notifyStep cfg obs st c now r2 = (.error e1, applyMutation cfg st c now) := by
        unfold notifyStep
        rw [hnt]
      exact hgoal
    · rw [hnt] at h2
      exact absurd h2 (by simp)


lemma performOperation_some_eq (cfg : CalculatorConfig) (strat : Strategy)
    (fpow froot : ℚ → ℚ → Except String ℚ) (obs : List Observer)
    (st : CalculatorState) (a b : RawInput) (now : Timestamp) :
    Calculator.performOperation cfg (some strat) fpow froot obs st a b now
      = ((performBody cfg strat fpow froot obs st a b now).1.mapError handleErr,
         (performBody cfg strat fpow froot obs st a b now).2) := by
  unfold Calculator.performOperation
  show (match performBody cfg strat fpow froot obs st a b now with
        | (.ok r, st2) => (.ok r, st2)
        | (.error e, st2) => (.error (handleErr e), st2))
      = ((performBody cfg strat fpow froot obs st a b now).1.mapError handleErr,
         (performBody cfg strat fpow froot obs st a b now).2)
  rcases hb : performBody cfg strat fpow froot obs st a b now with ⟨res, st2⟩
  cases res <;> rfl

lemma performOperation_ok_shape (cfg : CalculatorConfig) (strat : Strategy)
    (fpow froot : ℚ → ℚ → Except String ℚ) (obs : List Observer)
    (st : CalculatorState) (a b : RawInput) (now : Timestamp) (r : ℚ)
    (h : (Calculator.performOperation cfg (some strat) fpow froot obs st a b now).1 = .ok r) :
    ∃ c, Calculator.performOperation cfg (some strat) fpow froot obs st a b now
      = (.ok r, applyMutation cfg st c now) := by
  rw [performOperation_some_eq] at h ⊢
  have hb1 : (performBody cfg strat fpow froot obs st a b now).1 = .ok r := by
    rcases hres : (performBody cfg strat fpow froot obs st a b now).1 with e | r2
    · rw [hres] at h
      exact absurd h (by simp [Except.mapError])
    · rw [hres] at h
      have hr2 : r2 = r := by simpa [Except.mapError] using h
      rw [hr2]
  obtain ⟨c, hc, -⟩ := performBody_ok_shape cfg strat fpow froot obs st a b now r hb1
  exact ⟨c, by rw [hc]; rfl⟩

/-- C1: the claim says that after setting the "add" operation,
performOperation(5, 3) returns 8 and the history afterwards has length 1.
The code instead raises: `perform_operation` names the new record
`str(self.operation_strategy)`, which is the class name "Addition", while
`Calculation.calculate` only knows the lowercase keys ("add", ...), so the
record construction raises OperationError, the call fails with
"Operation failed: Unknown operation: Addition", and the history stays
empty.  This contradicts the repository tests
(test_perform_operation_addition expects 9 from perform_operation(5, 4)),
so the claim is taken as the intent and the code as the bug; this theorem
evaluates the embedded code at the failing input. -/
theorem c1_add_scenario_raises :
    createOperation (builtinOperations noFloat noFloat) "add" = .ok Addition ∧
    Calculator.performOperation defaultConfig (some Addition) noFloat noFloat [] emptyState
        (.num 5) (.num 3) 0
      = (.error (.operationError "Operation failed: Unknown operation: Addition"), emptyState) ∧
    (Calculator.performOperation defaultConfig (some Addition) noFloat noFloat [] emptyState
        (.num 5) (.num 3) 0).2.history.length = 0 := by
  have h1 : ¬((1000000:ℚ) < 5) := by norm_num
  have h2 : ¬((1000000:ℚ) < 3) := by norm_num
  refine ⟨rfl, ?_, ?_⟩ <;>
    simp [Calculator.performOperation, performBody, performPre, notifyStep, validateNumber,
      applyMutation, Calculation.make, Calculation.calculate, notifyObservers, Observer.update,
      handleErr, PyErr.msg, PyErr.isValidationError, defaultConfig, emptyState, Addition, h1, h2]

/-- C2 counterexample: with auto-save enabled and the save failing (the
`AutoSaverObserver` path cited by the claim), a perform run that reaches
observer notification raises OperationError while the history has already
been mutated, so "any error leaves history, undo stack and redo stack
exactly as before" is false as stated. -/
theorem c2_counterexample :
    (Calculator.performOperation defaultConfig (some addNamed) noFloat noFloat
        [.autoSaver (.error "disk full")] emptyState (.num 5) (.num 3) 0).1
      = .error (.operationError "Operation failed: Failed to save history: disk full") ∧
    (Calculator.performOperation defaultConfig (some addNamed) noFloat noFloat
        [.autoSaver (.error "disk full")] emptyState (.num 5) (.num 3) 0).2.history
      ≠ emptyState.history := by
  have h1 : ¬((1000000:ℚ) < 5) := by norm_num
  have h2 : ¬((1000000:ℚ) < 3) := by norm_num
  constructor <;>
    simp [Calculator.performOperation, performBody, performPre, notifyStep, validateNumber,
      applyMutation, Calculation.make, Calculation.calculate, notifyObservers, Observer.update,
      handleErr, PyErr.msg, PyErr.isValidationError, defaultConfig, emptyState, addNamed, h1, h2]

/-- C4: for every input with an operation set, when the body of
`perform_operation` raises an error `e`, the call re-raises exactly `e` when
it is a ValidationError, and otherwise an OperationError whose message wraps
the original message as "Operation failed: " followed by str(e). -/
theorem c4_error_propagation (cfg : CalculatorConfig) (strat : Strategy)
    (fpow froot : ℚ → ℚ → Except String ℚ) (obs : List Observer)
    (st : CalculatorState) (a b : RawInput) (now : Timestamp) (e : PyErr)
    (h : (performBody cfg strat fpow froot obs st a b now).1 = .error e) :
    (Calculator.performOperation cfg (some strat) fpow froot obs st a b now).1
      = .error (if e.isValidationError then e
                else .operationError ("Operation failed: " ++ e.msg)) := by
  rw [performOperation_some_eq]
  show (performBody cfg strat fpow froot obs st a b now).1.mapError handleErr = _
  rw [h]
  simp [Except.mapError, handleErr]

/-- Witness for C4 at a concrete input (an unparsable first operand). -/
theorem c4_witness :
    ((performBody defaultConfig Addition noFloat noFloat [] emptyState
        (.invalid "five") (.num 3) 0).1 = .error (.validationError "Invalid number format: five")) ∧
    (Calculator.performOperation defaultConfig (some Addition) noFloat noFloat [] emptyState
        (.invalid "five") (.num 3) 0).1
      = .error (if (PyErr.validationError "Invalid number format: five").isValidationError
                then (.validationError "Invalid number format: five")
                else .operationError ("Operation failed: "
                  ++ (PyErr.validationError "Invalid number format: five").msg)) :=
  ⟨by simp [performBody, performPre, validateNumber],
   c4_error_propagation defaultConfig Addition noFloat noFloat [] emptyState
     (.invalid "five") (.num 3) 0 (.validationError "Invalid number format: five")
     (by simp [performBody, performPre, validateNumber])⟩

/-- C2 amended: for every input and starting state, when
`perform_operation` raises, either the three containers are exactly as
before the call, or the error arose during observer notification (for some
record `c` the observers failed), in which case the full mutation (undo
snapshot pushed, redo stack cleared, record appended, eviction applied) is
already in place.  The original claim holds for every failure up to and
including record construction; observer/auto-save failures are the single
exception. -/
theorem c2_amended_failure_semantics (cfg : CalculatorConfig) (strategy : Option Strategy)
    (fpow froot : ℚ → ℚ → Except String ℚ) (obs : List Observer)
    (st : CalculatorState) (a b : RawInput) (now : Timestamp) (e : PyErr)
    (h : (Calculator.performOperation cfg strategy fpow froot obs st a b now).1 = .error e) :
    (Calculator.performOperation cfg strategy fpow froot obs st a b now).2 = st ∨
    ∃ c e0, notifyObservers cfg obs c = .error e0 ∧ e = handleErr e0 ∧
      (Calculator.performOperation cfg strategy fpow froot obs st a b now).2
        = applyMutation cfg st c now := by
  cases strategy with
  | none => exact .inl rfl
  | some strat =>
      rw [performOperation_some_eq] at h ⊢
      rcases hres : (performBody cfg strat fpow froot obs st a b now).1 with e0 | r
      · rw [hres] at h
        have he : e = handleErr e0 := by
          simpa [Except.mapError] using h.symm
        rcases performBody_error_shape cfg strat fpow froot obs st a b now e0 hres with
          hsh | ⟨c, hsh, hnt⟩
        · exact .inl (by rw [hsh])
        · exact .inr ⟨c, e0, hnt, he, by rw [hsh]⟩
      · rw [hres] at h
        exact absurd h (by simp [Except.mapError])

/-- Witness for the amended C2 at a concrete failing input. -/
theorem c2_amended_witness :
    ((Calculator.performOperation defaultConfig (some Addition) noFloat noFloat [] emptyState
        (.invalid "five") (.num 3) 0).1 = .error (.validationError "Invalid number format: five")) ∧
    ((Calculator.performOperation defaultConfig (some Addition) noFloat noFloat [] emptyState
        (.invalid "five") (.num 3) 0).2 = emptyState ∨
      ∃ c e0, notifyObservers defaultConfig [] c = .error e0 ∧
        PyErr.validationError "Invalid number format: five" = handleErr e0 ∧
        (Calculator.performOperation defaultConfig (some Addition) noFloat noFloat [] emptyState
          (.invalid "five") (.num 3) 0).2 = applyMutation defaultConfig emptyState c 0) :=
  ⟨by simp [Calculator.performOperation, performBody, performPre, validateNumber,
      handleErr, PyErr.isValidationError],
   c2_amended_failure_semantics defaultConfig (some Addition) noFloat noFloat [] emptyState
     (.invalid "five") (.num 3) 0 (.validationError "Invalid number format: five")
     (by simp [Calculator.performOperation, performBody, performPre, validateNumber,
        handleErr, PyErr.isValidationError])⟩

/-- C3: after any successful `perform_operation` call from an arbitrary
state (hence after any sequence of successful calls), one `undo` returns
true and restores the history to the history immediately before that call,
and a following `redo` returns true and restores the history to the state
immediately after that call. -/
theorem c3_undo_redo_inverse (cfg : CalculatorConfig) (strat : Strategy)
    (fpow froot : ℚ → ℚ → Except String ℚ) (obs : List Observer)
    (st : CalculatorState) (a b : RawInput) (now now2 now3 : Timestamp) (r : ℚ)
    (h : (Calculator.performOperation cfg (some strat) fpow froot obs st a b now).1 = .ok r) :
    (Calculator.undo
        (Calculator.performOperation cfg (some strat) fpow froot obs st a b now).2 now2).1
      = true ∧
    (Calculator.undo
        (Calculator.performOperation cfg (some strat) fpow froot obs st a b now).2 now2).2.history
      = st.history ∧
    (Calculator.redo
        (Calculator.undo
          (Calculator.performOperation cfg (some strat) fpow froot obs st a b now).2 now2).2
        now3).1 = true ∧
    (Calculator.redo
        (Calculator.undo
          (Calculator.performOperation cfg (some strat) fpow froot obs st a b now).2 now2).2
        now3).2.history
      = (Calculator.performOperation cfg (some strat) fpow froot obs st a b now).2.history := by
  obtain ⟨c, hc⟩ := performOperation_ok_shape cfg strat fpow froot obs st a b now r h
  rw [hc]
  unfold Calculator.undo Calculator.redo applyMutation
  simp

/-- Witness for C3 at a concrete successful perform run. -/
theorem c3_witness :
    ((Calculator.performOperation defaultConfig (some addNamed) noFloat noFloat [] emptyState
        (.num 5) (.num 3) 7).1 = .ok 8) ∧
    ((Calculator.undo
        (Calculator.performOperation defaultConfig (some addNamed) noFloat noFloat [] emptyState
          (.num 5) (.num 3) 7).2 9).1 = true ∧
     (Calculator.undo
        (Calculator.performOperation defaultConfig (some addNamed) noFloat noFloat [] emptyState
          (.num 5) (.num 3) 7).2 9).2.history = emptyState.history ∧
     (Calculator.redo
        (Calculator.undo
          (Calculator.performOperation defaultConfig (some addNamed) noFloat noFloat [] emptyState
            (.num 5) (.num 3) 7).2 9).2 11).1 = true ∧
     (Calculator.redo
        (Calculator.undo
          (Calculator.performOperation defaultConfig (some addNamed) noFloat noFloat [] emptyState
            (.num 5) (.num 3) 7).2 9).2 11).2.history
       = (Calculator.performOperation defaultConfig (some addNamed) noFloat noFloat [] emptyState
            (.num 5) (.num 3) 7).2.history) := by
  have h1 : ¬((1000000:ℚ) < 5) := by norm_num
  have h2 : ¬((1000000:ℚ) < 3) := by norm_num
  have hok : (Calculator.performOperation defaultConfig (some addNamed) noFloat noFloat []
      emptyState (.num 5) (.num 3) 7).1 = .ok 8 := by
    simp [Calculator.performOperation, performBody, performPre, notifyStep, validateNumber,
      applyMutation, Calculation.make, Calculation.calculate, notifyObservers,
      defaultConfig, emptyState, addNamed, h1, h2]
    norm_num
  exact ⟨hok, c3_undo_redo_inverse defaultConfig addNamed noFloat noFloat [] emptyState
    (.num 5) (.num 3) 7 9 11 8 hok⟩

/-- C5: for every successfully constructed Calculation record,
`from_dict (to_dict record)` succeeds and yields a record equal to the
original under the `__eq__` of `Calculation`, which compares operation,
operand1, operand2 and result and ignores the timestamp. -/
theorem c5_roundtrip (fpow froot : ℚ → ℚ → Except String ℚ) (op : String) (a b : ℚ)
    (now now2 : Timestamp) (c : Calculation)
    (h : Calculation.make fpow froot op a b now = .ok c) :
    ∃ c2, Calculation.fromDict fpow froot (Calculation.toDict c) now2 = .ok c2 ∧
      Calculation.pyEq c2 c := by
  unfold Calculation.make at h
  rcases hc : Calculation.calculate fpow froot op a b with e | r
  · rw [hc] at h
    exact absurd h (by simp)
  · rw [hc] at h
    have h2 : Calculation.mk op a b r now = c := by simpa using h
    subst h2
    refine ⟨Calculation.mk op a b r now, ?_, ⟨rfl, rfl, rfl, rfl⟩⟩
    unfold Calculation.fromDict Calculation.make Calculation.toDict
    simp [hc]

/-- Witness for C5 at the record built from add(5, 3). -/
theorem c5_roundtrip_witness :
    (Calculation.make noFloat noFloat "add" 5 3 0 = .ok (Calculation.mk "add" 5 3 8 0)) ∧
    (∃ c2, Calculation.fromDict noFloat noFloat
        (Calculation.toDict (Calculation.mk "add" 5 3 8 0)) 4 = .ok c2 ∧
      Calculation.pyEq c2 (Calculation.mk "add" 5 3 8 0)) := by
  have hmk : Calculation.make noFloat noFloat "add" 5 3 0 = .ok (Calculation.mk "add" 5 3 8 0) := by
    simp [Calculation.make, Calculation.calculate]
    norm_num
  exact ⟨hmk, c5_roundtrip noFloat noFloat "add" 5 3 0 4 (Calculation.mk "add" 5 3 8 0) hmk⟩

/-- C6 counterexample: IntegerDivision.execute(-7, 2) returns -3 (the
`Decimal` divide-integer truncates toward zero), while the mathematical
floor of -7/2 is -4, so "returns floor(a / b) including when the exact
quotient is negative" is false. -/
theorem c6_counterexample :
    (IntegerDivision).exec (-7) 2 = .ok (-3) ∧
    (⌊((-7 : ℚ) / 2)⌋ : ℚ) = -4 ∧
    (IntegerDivision).exec (-7) 2 ≠ .ok ((⌊((-7 : ℚ) / 2)⌋ : ℤ) : ℚ) := by
  have hneg : ((-7 : ℚ) / 2) = -(7/2) := by norm_num
  have hfl : (⌊((-7 : ℚ) / 2)⌋ : ℤ) = -4 := by norm_num
  refine ⟨?_, by norm_num, ?_⟩
  · have h0 : ¬((2:ℚ) = 0) := by norm_num
    simp [IntegerDivision, decRem, decIntDiv, hneg, h0, Int.ceil_neg]
    norm_num
  · rw [hfl]
    have h0 : ¬((2:ℚ) = 0) := by norm_num
    simp [IntegerDivision, decRem, decIntDiv, hneg, h0, Int.ceil_neg]
    norm_num

/-- C6 amended: for integral operands with b nonzero,
IntegerDivision.execute(a, b) returns the exact quotient truncated toward
zero: the floor of a/b when the quotient is nonnegative and the ceiling of
a/b when it is negative. -/
theorem c6_amended_truncation (a b : ℚ) (hb : b ≠ 0)
    (ha1 : decRem a 1 = 0) (hb1 : decRem b 1 = 0) :
    (IntegerDivision).exec a b = .ok ((decIntDiv a b : ℤ) : ℚ) ∧
    (0 ≤ a / b → decIntDiv a b = ⌊a / b⌋) ∧
    (a / b < 0 → decIntDiv a b = ⌈a / b⌉) := by
  refine ⟨?_, fun h => by simp [decIntDiv, h], fun h => ?_⟩
  · simp [IntegerDivision, hb, ha1, hb1]
  · have h2 : ¬(0 ≤ a / b) := not_le.mpr h
    simp [decIntDiv, h2]

/-- Witness for the amended C6 at the operands (7, 2). -/
theorem c6_amended_truncation_witness :
    ((2:ℚ) ≠ 0 ∧ decRem 7 1 = 0 ∧ decRem 2 1 = 0) ∧
    ((IntegerDivision).exec 7 2 = .ok ((decIntDiv 7 2 : ℤ) : ℚ) ∧
     (0 ≤ (7:ℚ) / 2 → decIntDiv 7 2 = ⌊(7:ℚ) / 2⌋) ∧
     ((7:ℚ) / 2 < 0 → decIntDiv 7 2 = ⌈(7:ℚ) / 2⌉)) := by
  have ha1 : decRem 7 1 = 0 := by norm_num [decRem, decIntDiv]
  have hb1 : decRem 2 1 = 0 := by norm_num [decRem, decIntDiv]
  have hb : (2:ℚ) ≠ 0 := by norm_num
  exact ⟨⟨hb, ha1, hb1⟩, c6_amended_truncation 7 2 hb ha1 hb1⟩

/-- C7 counterexample: performing Percentage(200, 0) raises a
ValidationError whose message is "Percentage value cannot be zero.", which
does not contain the text "zero base value"; the claim pairs the
ValidationError class with a message from a different code path. -/
theorem c7_counterexample :
    (Calculator.performOperation defaultConfig (some Percentage) noFloat noFloat [] emptyState
        (.num 200) (.num 0) 0).1
      = .error (.validationError "Percentage value cannot be zero.") ∧
    strContainsSub "Percentage value cannot be zero." "zero base value" = false := by
  have h1 : ¬((1000000:ℚ) < 200) := by norm_num
  have h2 : ¬((1000000:ℚ) < 0) := by norm_num
  refine ⟨?_, by decide⟩
  simp [Calculator.performOperation, performBody, performPre, validateNumber, Percentage,
    handleErr, PyErr.isValidationError, defaultConfig, emptyState, h1, h2]

/-- C7 amended: performing the Percentage operation with second operand 0
raises a ValidationError with message "Percentage value cannot be zero."
(leaving the state unchanged); the text "zero base value" occurs only in
the OperationError raised by the `Calculation.calculate` percentage path,
which `perform_operation` never reaches for this input because the
operation validates first. -/
theorem c7_amended_zero_message (cfg : CalculatorConfig)
    (fpow froot : ℚ → ℚ → Except String ℚ) (obs : List Observer)
    (st : CalculatorState) (a : ℚ) (now : Timestamp)
    (hmax : 0 < cfg.maxInputValue) (ha : |a| ≤ cfg.maxInputValue) :
    (Calculator.performOperation cfg (some Percentage) fpow froot obs st
        (.num a) (.num 0) now).1
      = .error (.validationError "Percentage value cannot be zero.") ∧
    (Calculator.performOperation cfg (some Percentage) fpow froot obs st
        (.num a) (.num 0) now).2 = st ∧
    Calculation.calculate fpow froot "percentage" a 0
      = .error (.operationError "Cannot calculate percentage with zero base value.") ∧
    strContainsSub "Cannot calculate percentage with zero base value." "zero base value"
      = true := by
  have h1 : ¬(cfg.maxInputValue < |a|) := not_lt.mpr ha
  have h2 : ¬(cfg.maxInputValue < 0) := not_lt.mpr hmax.le
  refine ⟨?_, ?_, ?_, by decide⟩
  · simp [Calculator.performOperation, performBody, performPre, validateNumber, Percentage,
      handleErr, PyErr.isValidationError, h1, h2]
  · simp [Calculator.performOperation, performBody, performPre, validateNumber, Percentage,
      handleErr, PyErr.isValidationError, h1, h2]
  · simp [Calculation.calculate]

/-- Witness for the amended C7 at Percentage(200, 0) under the default configuration. -/
theorem c7_amended_zero_message_witness :
    ((0:ℚ) < defaultConfig.maxInputValue ∧ |(200:ℚ)| ≤ defaultConfig.maxInputValue) ∧
    ((Calculator.performOperation defaultConfig (some Percentage) noFloat noFloat [] emptyState
        (.num 200) (.num 0) 3).1
      = .error (.validationError "Percentage value cannot be zero.") ∧
     (Calculator.performOperation defaultConfig (some Percentage) noFloat noFloat [] emptyState
        (.num 200) (.num 0) 3).2 = emptyState ∧
     Calculation.calculate noFloat noFloat "percentage" 200 0
      = .error (.operationError "Cannot calculate percentage with zero base value.") ∧
     strContainsSub "Cannot calculate percentage with zero base value." "zero base value"
      = true) := by
  have hmax : (0:ℚ) < defaultConfig.maxInputValue := by norm_num [defaultConfig]
  have ha : |(200:ℚ)| ≤ defaultConfig.maxInputValue := by norm_num [defaultConfig]
  exact ⟨⟨hmax, ha⟩, c7_amended_zero_message defaultConfig noFloat noFloat [] emptyState
    200 3 hmax ha⟩

/-- C9 counterexample: `create_operation` on the unregistered name "foo"
raises the builtin ValueError (message "Unkown operation type: foo", sic),
not an OperationError-kind error as the claim states. -/
theorem c9_counterexample :
    createOperation (builtinOperations noFloat noFloat) "foo"
      = .error (.valueError "Unkown operation type: foo") ∧
    PyErr.isOperationError (.valueError "Unkown operation type: foo") = false :=
  ⟨rfl, rfl⟩

/-- C9 amended: for every name absent from the registry after the
case-insensitive (lowercasing) lookup, `create_operation` raises a builtin
ValueError with message "Unkown operation type: " followed by the name; that
error is outside the calculator error hierarchy, in particular it is not an
OperationError. -/
theorem c9_amended_value_err (ops : List (String × Strategy)) (name : String)
    (h : ops.lookup (strLower name) = none) :
    createOperation ops name = .error (.valueError ("Unkown operation type: " ++ name)) ∧
    PyErr.isOperationError (.valueError ("Unkown operation type: " ++ name)) = false := by
  unfold createOperation
  rw [h]
  exact ⟨rfl, rfl⟩

/-- Witness for the amended C9 at the unregistered name "foo". -/
theorem c9_amended_value_err_witness :
    ((builtinOperations noFloat noFloat).lookup (strLower "foo") = none) ∧
    (createOperation (builtinOperations noFloat noFloat) "foo"
        = .error (.valueError ("Unkown operation type: " ++ "foo")) ∧
     PyErr.isOperationError (.valueError ("Unkown operation type: " ++ "foo")) = false) :=
  ⟨rfl, c9_amended_value_err (builtinOperations noFloat noFloat) "foo" rfl⟩

/-- C8: for a validated configuration (max_history_size positive),
whenever a successful `perform_operation` appends while the history length
equals max_history_size, the history length afterwards is still exactly
max_history_size and the new history is the old one with only the single
oldest record (index 0) evicted and the new record appended. -/
theorem c8_eviction_bound (cfg : CalculatorConfig) (strat : Strategy)
    (fpow froot : ℚ → ℚ → Except String ℚ) (obs : List Observer)
    (st : CalculatorState) (a b : RawInput) (now : Timestamp) (r : ℚ)
    (hmax : 0 < cfg.maxHistorySize)
    (hlen : (st.history.length : ℤ) = cfg.maxHistorySize)
    (h : (Calculator.performOperation cfg (some strat) fpow froot obs st a b now).1 = .ok r) :
    (((Calculator.performOperation cfg (some strat) fpow froot obs st a b now).2.history.length : ℤ)
      = cfg.maxHistorySize) ∧
    ∃ c, (Calculator.performOperation cfg (some strat) fpow froot obs st a b now).2.history
      = st.history.tail ++ [c] := by
  obtain ⟨c, hc⟩ := performOperation_ok_shape cfg strat fpow froot obs st a b now r h
  rw [hc]
  show (((applyMutation cfg st c now).history.length : ℤ) = cfg.maxHistorySize) ∧
    ∃ c2, (applyMutation cfg st c now).history = st.history.tail ++ [c2]
  have hne : 1 ≤ st.history.length := by
    have h0 : (0:ℤ) < (st.history.length : ℤ) := by rw [hlen]; exact hmax
    exact_mod_cast h0
  have hgt : ((st.history ++ [c]).length : ℤ) > cfg.maxHistorySize := by
    have hlen1 : (st.history ++ [c]).length = st.history.length + 1 := by simp
    rw [hlen1]
    push_cast
    rw [hlen]
    exact lt_add_one _
  have hhist : (applyMutation cfg st c now).history
      = if ((st.history ++ [c]).length : ℤ) > cfg.maxHistorySize
        then (st.history ++ [c]).drop 1 else st.history ++ [c] := rfl
  rw [hhist, if_pos hgt, List.drop_append_of_le_length hne]
  constructor
  · have hlen2 : (st.history.drop 1 ++ [c]).length = st.history.length - 1 + 1 := by
      simp [List.length_drop]
    rw [hlen2, Nat.sub_add_cancel hne]
    exact hlen
  · exact ⟨c, by rw [List.drop_one]⟩

/-- C10: a successful `undo` pops exactly one snapshot off the undo stack
(which must be nonempty) and pushes exactly one snapshot, whose history is
the pre-call live history, onto the redo stack; a successful `redo` does
the symmetric move; in both cases the total number of snapshots across the
two stacks is unchanged. -/
theorem c10_stack_balance :
    (∀ (st : CalculatorState) (now : Timestamp) (st2 : CalculatorState),
      Calculator.undo st now = (true, st2) →
        st.undoStack ≠ [] ∧ st2.undoStack = st.undoStack.dropLast ∧
        st2.redoStack = st.redoStack ++ [CalculatorMemento.mk st.history now] ∧
        st2.undoStack.length + st2.redoStack.length
          = st.undoStack.length + st.redoStack.length) ∧
    (∀ (st : CalculatorState) (now : Timestamp) (st2 : CalculatorState),
      Calculator.redo st now = (true, st2) →
        st.redoStack ≠ [] ∧ st2.redoStack = st.redoStack.dropLast ∧
        st2.undoStack = st.undoStack ++ [CalculatorMemento.mk st.history now] ∧
        st2.undoStack.length + st2.redoStack.length
          = st.undoStack.length + st.redoStack.length) := by
  constructor
  · intro st now st2 h
    unfold Calculator.undo at h
    rcases hlast : st.undoStack.getLast? with - | m
    · rw [hlast] at h
      exact absurd h (by simp)
    · rw [hlast] at h
      have hne : st.undoStack ≠ [] := by
        intro h0
        rw [h0] at hlast
        simp at hlast
      injection h with h1 h2
      subst h2
      refine ⟨hne, rfl, rfl, ?_⟩
      have hpos : 1 ≤ st.undoStack.length := List.length_pos.mpr hne
      simp [List.length_dropLast]
      omega
  · intro st now st2 h
    unfold Calculator.redo at h
    rcases hlast : st.redoStack.getLast? with - | m
    · rw [hlast] at h
      exact absurd h (by simp)
    · rw [hlast] at h
      have hne : st.redoStack ≠ [] := by
        intro h0
        rw [h0] at hlast
        simp at hlast
      injection h with h1 h2
      subst h2
      refine ⟨hne, rfl, rfl, ?_⟩
      have hpos : 1 ≤ st.redoStack.length := List.length_pos.mpr hne
      simp [List.length_dropLast]
      omega

/-- Witness for C8 with max_history_size 1 and a full one-element history. -/
theorem c8_eviction_bound_witness :
    ((0:ℤ) < 1 ∧
     (((CalculatorState.mk [Calculation.mk "add" 1 1 2 0] [] []).history.length : ℤ)
        = (CalculatorConfig.mk 1 true 10 1000000).maxHistorySize) ∧
     (Calculator.performOperation (CalculatorConfig.mk 1 true 10 1000000) (some addNamed)
        noFloat noFloat [] (CalculatorState.mk [Calculation.mk "add" 1 1 2 0] [] [])
        (.num 5) (.num 3) 7).1 = .ok 8) ∧
    ((((Calculator.performOperation (CalculatorConfig.mk 1 true 10 1000000) (some addNamed)
        noFloat noFloat [] (CalculatorState.mk [Calculation.mk "add" 1 1 2 0] [] [])
        (.num 5) (.num 3) 7).2.history.length : ℤ)
      = (CalculatorConfig.mk 1 true 10 1000000).maxHistorySize) ∧
     ∃ c, (Calculator.performOperation (CalculatorConfig.mk 1 true 10 1000000) (some addNamed)
        noFloat noFloat [] (CalculatorState.mk [Calculation.mk "add" 1 1 2 0] [] [])
        (.num 5) (.num 3) 7).2.history
      = (CalculatorState.mk [Calculation.mk "add" 1 1 2 0] [] []).history.tail ++ [c]) := by
  have h1 : ¬((1000000:ℚ) < 5) := by norm_num
  have h2 : ¬((1000000:ℚ) < 3) := by norm_num
  have hok : (Calculator.performOperation (CalculatorConfig.mk 1 true 10 1000000) (some addNamed)
      noFloat noFloat [] (CalculatorState.mk [Calculation.mk "add" 1 1 2 0] [] [])
      (.num 5) (.num 3) 7).1 = .ok 8 := by
    simp [Calculator.performOperation, performBody, performPre, notifyStep, validateNumber,
      applyMutation, Calculation.make, Calculation.calculate, notifyObservers, addNamed, h1, h2]
    norm_num
  exact ⟨⟨by norm_num, by simp, hok⟩,
    c8_eviction_bound (CalculatorConfig.mk 1 true 10 1000000) addNamed noFloat noFloat []
      (CalculatorState.mk [Calculation.mk "add" 1 1 2 0] [] []) (.num 5) (.num 3) 7 8
      (by norm_num) (by simp) hok⟩

/-- Witness for C10 on concrete one-snapshot stacks. -/
theorem c10_stack_balance_witness :
    (Calculator.undo (CalculatorState.mk [] [CalculatorMemento.mk [] 0] []) 5
      = (true, CalculatorState.mk [] [] [CalculatorMemento.mk [] 5]) ∧
     ((CalculatorState.mk [] [CalculatorMemento.mk [] 0] []).undoStack ≠ [] ∧
      (CalculatorState.mk [] [] [CalculatorMemento.mk [] 5]).undoStack
        = (CalculatorState.mk [] [CalculatorMemento.mk [] 0] []).undoStack.dropLast ∧
      (CalculatorState.mk [] [] [CalculatorMemento.mk [] 5]).redoStack
        = (CalculatorState.mk [] [CalculatorMemento.mk [] 0] []).redoStack
            ++ [CalculatorMemento.mk (CalculatorState.mk [] [CalculatorMemento.mk [] 0] []).history 5] ∧
      (CalculatorState.mk [] [] [CalculatorMemento.mk [] 5]).undoStack.length
          + (CalculatorState.mk [] [] [CalculatorMemento.mk [] 5]).redoStack.length
        = (CalculatorState.mk [] [CalculatorMemento.mk [] 0] []).undoStack.length
          + (CalculatorState.mk [] [CalculatorMemento.mk [] 0] []).redoStack.length)) ∧
    (Calculator.redo (CalculatorState.mk [] [] [CalculatorMemento.mk [] 0]) 5
      = (true, CalculatorState.mk [] [CalculatorMemento.mk [] 5] []) ∧
     ((CalculatorState.mk [] [] [CalculatorMemento.mk [] 0]).redoStack ≠ [] ∧
      (CalculatorState.mk [] [CalculatorMemento.mk [] 5] []).redoStack
        = (CalculatorState.mk [] [] [CalculatorMemento.mk [] 0]).redoStack.dropLast ∧
      (CalculatorState.mk [] [CalculatorMemento.mk [] 5] []).undoStack
        = (CalculatorState.mk [] [] [CalculatorMemento.mk [] 0]).undoStack
            ++ [CalculatorMemento.mk (CalculatorState.mk [] [] [CalculatorMemento.mk [] 0]).history 5] ∧
      (CalculatorState.mk [] [CalculatorMemento.mk [] 5] []).undoStack.length
          + (CalculatorState.mk [] [CalculatorMemento.mk [] 5] []).redoStack.length
        = (CalculatorState.mk [] [] [CalculatorMemento.mk [] 0]).undoStack.length
          + (CalculatorState.mk [] [] [CalculatorMemento.mk [] 0]).redoStack.length)) := by
  have hu : Calculator.undo (CalculatorState.mk [] [CalculatorMemento.mk [] 0] []) 5
      = (true, CalculatorState.mk [] [] [CalculatorMemento.mk [] 5]) := by
    simp [Calculator.undo]
  have hr : Calculator.redo (CalculatorState.mk [] [] [CalculatorMemento.mk [] 0]) 5
      = (true, CalculatorState.mk [] [CalculatorMemento.mk [] 5] []) := by
    simp [Calculator.redo]
  exact ⟨⟨hu, c10_stack_balance.1 (CalculatorState.mk [] [CalculatorMemento.mk [] 0] []) 5
      (CalculatorState.mk [] [] [CalculatorMemento.mk [] 5]) hu⟩,
    ⟨hr, c10_stack_balance.2 (CalculatorState.mk [] [] [CalculatorMemento.mk [] 0]) 5
      (CalculatorState.mk [] [CalculatorMemento.mk [] 5] []) hr⟩⟩
